import Mathlib

/-!
Verification of the greenhouse sensor data manager backend.

Shallow embedding of `src/greenhouse-sensor-data-manager-backend/src/lib.rs`:
a durable record store with a monotonically incremented id counter
(`ID_COUNTER`), a map from `u64` ids to records (`STORAGE`), a payload
validator, and four operations (`add_sensor_data`, `get_sensor_data`,
`update_sensor_data`, `delete_sensor_data`).

Modelling choices:
- `f64` fields are modelled by `F64`: either NaN or a finite value (every
  finite double is a rational).  The source only compares floats (`<`, `>`,
  and `RangeInclusive::contains`, which is `lo <= x && x <= hi`); the IEEE
  comparisons return `false` whenever an operand is NaN, which the modelled
  `F64.lt` / `F64.le` reproduce.
- `u64` ids and timestamps are modelled by `Nat` (the counter increments by
  one per create; overflow of the 64-bit cell is unreachable in practice and
  would trap, not wrap silently into a duplicate id).
- the host clock `ic_cdk::api::time()` is passed to each mutating operation
  as an explicit `now : Nat` argument.
- the thread-local durable state (`ID_COUNTER`, `STORAGE`) becomes an
  explicit `State` record threaded through the operations; each operation
  returns its Rust result paired with the post-state.
- Rust string interpolation (format macro) becomes explicit concatenation.
-/

/-- Model of an `f64` as used by the validator: NaN, or a finite value
(represented exactly as a rational).  Comparisons follow IEEE-754: any
comparison involving NaN is `false`. -/
inductive F64 where
  | nan : F64
  | fin : ℚ → F64
deriving DecidableEq, Repr

/-- IEEE `<` on doubles: `false` whenever an operand is NaN. -/
def F64.lt : F64 → F64 → Bool
  | F64.fin a, F64.fin b => decide (a < b)
  | _, _ => false

/-- IEEE `<=` on doubles: `false` whenever an operand is NaN. -/
def F64.le : F64 → F64 → Bool
  | F64.fin a, F64.fin b => decide (a ≤ b)
  | _, _ => false

/-- Rust `RangeInclusive::contains`: `lo <= x && x <= hi`. -/
def rangeContains (lo hi x : F64) : Bool :=
  F64.le lo x && F64.le x hi

/-- The `SensorData` record (`struct SensorData`).  The creation timestamp
field is named `timestamp` in the source (the spec calls it `created_at`). -/
structure SensorData where
  id : Nat
  device_id : String
  temperature : F64
  humidity : F64
  soil_moisture : F64
  timestamp : Nat
  updated_at : Option Nat
deriving DecidableEq, Repr

/-- The `SensorDataPayload` input structure. -/
structure SensorDataPayload where
  device_id : String
  temperature : F64
  humidity : F64
  soil_moisture : F64
deriving DecidableEq, Repr

/-- The `Error` enum: `NotFound { msg }` and `InvalidInput { msg }`. -/
inductive Error where
  | NotFound (msg : String) : Error
  | InvalidInput (msg : String) : Error
deriving DecidableEq, Repr

deriving instance DecidableEq for Except

/-- Model of Rust `str::trim`: drop leading and trailing whitespace
characters.  (Rust trims the Unicode `White_Space` set; this model trims its
ASCII part, which is what the device-id check in the claims exercises.) -/
def rustTrim (s : String) : String :=
  String.mk (((s.data.dropWhile Char.isWhitespace).reverse.dropWhile
    Char.isWhitespace).reverse)

/-- `validate_sensor_data_payload`: four checks in source order, each
short-circuiting with `InvalidInput` carrying the message from the source.
The temperature check is written with two strict comparisons
(`t < -50.0 || t > 60.0`); the humidity and soil-moisture checks use
`!(0.0..=100.0).contains(..)`. -/
def validate_sensor_data_payload (payload : SensorDataPayload) : Except Error Unit :=
  if (rustTrim payload.device_id).isEmpty then
    Except.error (Error.InvalidInput "Device ID cannot be empty")
  else if !(rangeContains (F64.fin 0) (F64.fin 100) payload.humidity) then
    Except.error (Error.InvalidInput "Humidity must be between 0 and 100")
  else if F64.lt payload.temperature (F64.fin (-50)) || F64.lt (F64.fin 60) payload.temperature then
    Except.error (Error.InvalidInput "Temperature must be between -50 and 60 degrees")
  else if !(rangeContains (F64.fin 0) (F64.fin 100) payload.soil_moisture) then
    Except.error (Error.InvalidInput "Soil moisture must be between 0 and 100")
  else
    Except.ok ()

/-- The durable state: the `ID_COUNTER` cell and the `STORAGE` map
(`StableBTreeMap<u64, SensorData>`), modelled as a function from id to
optional record. -/
structure State where
  counter : Nat
  storage : Nat → Option SensorData

/-- The initial durable state: counter cell initialised to 0, empty map. -/
def initState : State :=
  { counter := 0, storage := fun _ => none }

/-- `_get_sensor_data`: direct map lookup. -/
def _get_sensor_data (s : State) (id : Nat) : Option SensorData :=
  s.storage id

/-- `get_sensor_data`: returns the record, or `NotFound` naming the id. -/
def get_sensor_data (s : State) (id : Nat) : Except Error SensorData :=
  match _get_sensor_data s id with
  | some data => Except.ok data
  | none => Except.error (Error.NotFound
      ("Sensor data with id=" ++ toString id ++ " not found"))

/-- `do_insert`: inserts the record into the map keyed by `data.id`. -/
def do_insert (s : State) (data : SensorData) : State :=
  { s with storage := fun k => if k = data.id then some data else s.storage k }

/-- `add_sensor_data`: validate, take the pre-increment counter value as the
new id and store back `current + 1`, build the record with `timestamp = now`
and `updated_at = None`, insert it, return it. -/
def add_sensor_data (s : State) (now : Nat) (payload : SensorDataPayload) :
    (Except Error SensorData) × State :=
  match validate_sensor_data_payload payload with
  | Except.error e => (Except.error e, s)
  | Except.ok () =>
    let id := s.counter
    let s1 : State := { s with counter := s.counter + 1 }
    let data : SensorData :=
      { id := id
        device_id := payload.device_id
        temperature := payload.temperature
        humidity := payload.humidity
        soil_moisture := payload.soil_moisture
        timestamp := now
        updated_at := none }
    (Except.ok data, do_insert s1 data)

/-- `update_sensor_data`: validate, look up the record, replace the four
payload fields, set `updated_at = Some(now)`, re-insert, return it;
`NotFound` naming the id when the lookup fails. -/
def update_sensor_data (s : State) (now : Nat) (id : Nat)
    (payload : SensorDataPayload) : (Except Error SensorData) × State :=
  match validate_sensor_data_payload payload with
  | Except.error e => (Except.error e, s)
  | Except.ok () =>
    match s.storage id with
    | some data =>
      let data2 : SensorData :=
        { data with
          device_id := payload.device_id
          temperature := payload.temperature
          humidity := payload.humidity
          soil_moisture := payload.soil_moisture
          updated_at := some now }
      (Except.ok data2, do_insert s data2)
    | none =>
      (Except.error (Error.NotFound
        ("Couldn\x27t update sensor data with id=" ++ toString id ++ ". Data not found")), s)

/-- `delete_sensor_data`: remove the record and return it, or `NotFound`
naming the id. -/
def delete_sensor_data (s : State) (id : Nat) :
    (Except Error SensorData) × State :=
  match s.storage id with
  | some data =>
    (Except.ok data,
     { s with storage := fun k => if k = id then none else s.storage k })
  | none =>
    (Except.error (Error.NotFound
      ("Couldn\x27t delete sensor data with id=" ++ toString id ++ ". Data not found.")), s)

/-- A call in a trace: a create (with the clock value at that call) or a
delete. -/
inductive Op where
  | add (now : Nat) (p : SensorDataPayload) : Op
  | del (id : Nat) : Op

/-- Run one call against the state, keeping only the post-state. -/
def stepOp (s : State) : Op → State
  | Op.add now p => (add_sensor_data s now p).2
  | Op.del id => (delete_sensor_data s id).2

/-- The ids returned by the successful `add_sensor_data` calls of a trace,
in call order. -/
def addIds (s : State) : List Op → List Nat
  | [] => []
  | Op.add now p :: ops =>
    match add_sensor_data s now p with
    | (Except.ok d, s1) => d.id :: addIds s1 ops
    | (Except.error _, s1) => addIds s1 ops
  | Op.del id :: ops => addIds (delete_sensor_data s id).2 ops

/-- A well-keyed map stores every record under its own `id` field.  This
holds in every state reachable from `initState` (creates insert the fresh
record under its own id; updates keep the id field; deletes only remove). -/
def WellKeyed (s : State) : Prop :=
  ∀ id d, s.storage id = some d → d.id = id

/-- A concrete valid payload, used by the witnesses. -/
def validPayload : SensorDataPayload :=
  { device_id := "greenhouse-1", temperature := F64.fin 25,
    humidity := F64.fin 50, soil_moisture := F64.fin 40 }

theorem add_ok_counter {s : State} {now : Nat} {p : SensorDataPayload}
    {d : SensorData} {s1 : State}
    (h : add_sensor_data s now p = (Except.ok d, s1)) :
    d.id = s.counter ∧ s1.counter = s.counter + 1 := by
  unfold add_sensor_data at h
  cases hv : validate_sensor_data_payload p with
  | error e => rw [hv] at h; exact absurd (congrArg Prod.fst h) (by simp)
  | ok u =>
    cases u
    rw [hv] at h
    simp only [Prod.mk.injEq, Except.ok.injEq] at h
    obtain ⟨h1, h2⟩ := h
    subst h1; subst h2
    exact ⟨rfl, rfl⟩

theorem add_err_state {s : State} {now : Nat} {p : SensorDataPayload}
    {e : Error} {s1 : State}
    (h : add_sensor_data s now p = (Except.error e, s1)) : s1 = s := by
  unfold add_sensor_data at h
  cases hv : validate_sensor_data_payload p with
  | error e2 =>
    rw [hv] at h
    exact (congrArg Prod.snd h).symm
  | ok u =>
    cases u
    rw [hv] at h
    exact absurd (congrArg Prod.fst h) (by simp)

theorem del_counter (s : State) (id : Nat) :
    (delete_sensor_data s id).2.counter = s.counter := by
  unfold delete_sensor_data
  cases s.storage id <;> rfl

theorem addIds_lower_bound :
    ∀ (ops : List Op) (s : State) (x : Nat), x ∈ addIds s ops → s.counter ≤ x := by
  intro ops
  induction ops with
  | nil => intro s x hx; simp [addIds] at hx
  | cons op ops ih =>
    intro s x hx
    cases op with
    | add now p =>
      rw [addIds] at hx
      rcases hr : add_sensor_data s now p with ⟨r, s1⟩
      cases r with
      | ok d =>
        rw [hr] at hx
        rcases List.mem_cons.mp hx with h | h
        · subst h; exact le_of_eq (add_ok_counter hr).1.symm
        · have := ih s1 x h
          have hc := (add_ok_counter hr).2
          omega
      | error e =>
        rw [hr] at hx
        have hle := ih s1 x hx
        rw [add_err_state hr] at hle
        exact hle
    | del id =>
      rw [addIds] at hx
      have := ih (delete_sensor_data s id).2 x hx
      have hc := del_counter s id
      omega

theorem addIds_pairwise :
    ∀ (ops : List Op) (s : State), (addIds s ops).Pairwise (· < ·) := by
  intro ops
  induction ops with
  | nil => intro s; simp [addIds]
  | cons op ops ih =>
    intro s
    cases op with
    | add now p =>
      rw [addIds]
      rcases hr : add_sensor_data s now p with ⟨r, s1⟩
      cases r with
      | ok d =>
        refine List.pairwise_cons.mpr ⟨?_, ih s1⟩
        intro x hx
        have hlb := addIds_lower_bound ops s1 x hx
        have hc := add_ok_counter hr
        omega
      | error e => exact ih s1
    | del id =>
      rw [addIds]
      exact ih (delete_sensor_data s id).2

theorem addIds_head :
    ∀ (ops : List Op) (s : State) (i : Nat),
      (addIds s ops).head? = some i → i = s.counter := by
  intro ops
  induction ops with
  | nil => intro s i h; simp [addIds] at h
  | cons op ops ih =>
    intro s i h
    cases op with
    | add now p =>
      rw [addIds] at h
      rcases hr : add_sensor_data s now p with ⟨r, s1⟩
      cases r with
      | ok d =>
        rw [hr] at h
        have h2 : d.id = i := Option.some.inj h
        rw [← h2]
        exact (add_ok_counter hr).1
      | error e =>
        rw [hr] at h
        have := ih s1 i h
        rw [add_err_state hr] at this
        exact this
    | del id =>
      rw [addIds] at h
      have := ih (delete_sensor_data s id).2 i h
      rw [del_counter s id] at this
      exact this

/-- A second valid payload, used by the update witnesses. -/
def validPayload2 : SensorDataPayload :=
  { device_id := "greenhouse-2", temperature := F64.fin 30,
    humidity := F64.fin 60, soil_moisture := F64.fin 20 }

/-- The record produced by `add_sensor_data initState 5 validPayload`. -/
def record0 : SensorData :=
  { id := 0, device_id := "greenhouse-1", temperature := F64.fin 25,
    humidity := F64.fin 50, soil_moisture := F64.fin 40,
    timestamp := 5, updated_at := none }

/-- The state after `add_sensor_data initState 5 validPayload`. -/
def oneRecState : State :=
  { counter := 1, storage := fun k => if k = 0 then some record0 else none }

theorem oneRecState_wellKeyed : WellKeyed oneRecState := by
  intro id d h
  by_cases h0 : id = 0
  · subst h0
    have hd : d = record0 := by
      have := h
      simp [oneRecState] at this
      exact this.symm
    rw [hd]
    rfl
  · simp [oneRecState, h0] at h

/-- C1: over any trace of `add_sensor_data` calls interleaved with
`delete_sensor_data` calls starting from the initial state, a successful add
returns the pre-increment counter value and stores back `current + 1`, the
returned ids are strictly increasing with no repeats, and the first id ever
issued is the initial value 0 of the counter. -/
theorem add_ids_strictly_increasing :
    (∀ (s : State) (now : Nat) (p : SensorDataPayload) (d : SensorData) (s1 : State),
       add_sensor_data s now p = (Except.ok d, s1) →
       d.id = s.counter ∧ s1.counter = s.counter + 1) ∧
    (∀ ops : List Op, (addIds initState ops).Pairwise (· < ·)) ∧
    (∀ (ops : List Op) (i : Nat), (addIds initState ops).head? = some i → i = 0) := by
  refine ⟨fun s now p d s1 h => add_ok_counter h,
          fun ops => addIds_pairwise ops initState,
          fun ops i h => addIds_head ops initState i h⟩

/-- Witness for C1 at a concrete trace: two adds around a delete yield ids
`[0, 1]`, the first add returns the initial counter value, and the head of a
one-add trace is 0. -/
theorem add_ids_strictly_increasing_witness :
    (addIds initState [Op.add 5 validPayload, Op.del 0, Op.add 6 validPayload]).Pairwise
      (· < ·) ∧
    record0.id = initState.counter ∧ (0 : Nat) = 0 :=
  ⟨add_ids_strictly_increasing.2.1 _,
   (add_ids_strictly_increasing.1 initState 5 validPayload record0 oneRecState rfl).1,
   add_ids_strictly_increasing.2.2 [Op.add 5 validPayload] 0 (by decide)⟩

/-- C2: for every payload passing validation, `add_sensor_data` succeeds and
an immediately following `get_sensor_data` on the returned id yields the very
record, whose payload fields equal the input payload, whose id is the issued
counter value, whose creation timestamp is the clock value of the call, and whose
`updated_at` is `none`. -/
theorem add_then_get_round_trip (s : State) (now : Nat) (p : SensorDataPayload)
    (hv : validate_sensor_data_payload p = Except.ok ()) :
    ∃ (d : SensorData) (s1 : State),
      add_sensor_data s now p = (Except.ok d, s1) ∧
      get_sensor_data s1 d.id = Except.ok d ∧
      d.id = s.counter ∧ d.device_id = p.device_id ∧ d.temperature = p.temperature ∧
      d.humidity = p.humidity ∧ d.soil_moisture = p.soil_moisture ∧
      d.timestamp = now ∧ d.updated_at = none := by
  unfold add_sensor_data
  rw [hv]
  refine ⟨_, _, rfl, ?_, rfl, rfl, rfl, rfl, rfl, rfl, rfl⟩
  simp [get_sensor_data, _get_sensor_data, do_insert]

/-- Witness for C2: the round trip at the initial state with a concrete
valid payload. -/
theorem add_then_get_round_trip_witness :
    ∃ (d : SensorData) (s1 : State),
      add_sensor_data initState 5 validPayload = (Except.ok d, s1) ∧
      get_sensor_data s1 d.id = Except.ok d ∧
      d.id = initState.counter ∧ d.device_id = validPayload.device_id ∧
      d.temperature = validPayload.temperature ∧
      d.humidity = validPayload.humidity ∧
      d.soil_moisture = validPayload.soil_moisture ∧
      d.timestamp = 5 ∧ d.updated_at = none :=
  add_then_get_round_trip initState 5 validPayload (by decide)

/-- C3: the validator checks device-id, humidity, temperature and
soil-moisture in that order, short-circuiting on the first failure with the
corresponding `InvalidInput`; the two range checks are inclusive of their
bounds (`[0, 100]` for humidity and soil moisture, `[-50, 60]` for
temperature), the boundary values are accepted, and out-of-range values or a
whitespace-only device id are rejected. -/
theorem validate_order_and_boundaries :
    (∀ p : SensorDataPayload, (rustTrim p.device_id).isEmpty = true →
       validate_sensor_data_payload p =
         Except.error (Error.InvalidInput "Device ID cannot be empty")) ∧
    (∀ p : SensorDataPayload, (rustTrim p.device_id).isEmpty = false →
       rangeContains (F64.fin 0) (F64.fin 100) p.humidity = false →
       validate_sensor_data_payload p =
         Except.error (Error.InvalidInput "Humidity must be between 0 and 100")) ∧
    (∀ p : SensorDataPayload, (rustTrim p.device_id).isEmpty = false →
       rangeContains (F64.fin 0) (F64.fin 100) p.humidity = true →
       (F64.lt p.temperature (F64.fin (-50)) || F64.lt (F64.fin 60) p.temperature) = true →
       validate_sensor_data_payload p =
         Except.error (Error.InvalidInput "Temperature must be between -50 and 60 degrees")) ∧
    (∀ p : SensorDataPayload, (rustTrim p.device_id).isEmpty = false →
       rangeContains (F64.fin 0) (F64.fin 100) p.humidity = true →
       (F64.lt p.temperature (F64.fin (-50)) || F64.lt (F64.fin 60) p.temperature) = false →
       rangeContains (F64.fin 0) (F64.fin 100) p.soil_moisture = false →
       validate_sensor_data_payload p =
         Except.error (Error.InvalidInput "Soil moisture must be between 0 and 100")) ∧
    (∀ p : SensorDataPayload, (rustTrim p.device_id).isEmpty = false →
       rangeContains (F64.fin 0) (F64.fin 100) p.humidity = true →
       (F64.lt p.temperature (F64.fin (-50)) || F64.lt (F64.fin 60) p.temperature) = false →
       rangeContains (F64.fin 0) (F64.fin 100) p.soil_moisture = true →
       validate_sensor_data_payload p = Except.ok ()) ∧
    (∀ q : ℚ, rangeContains (F64.fin 0) (F64.fin 100) (F64.fin q) = true ↔
       0 ≤ q ∧ q ≤ 100) ∧
    (∀ q : ℚ,
       (F64.lt (F64.fin q) (F64.fin (-50)) || F64.lt (F64.fin 60) (F64.fin q)) = false ↔
       -50 ≤ q ∧ q ≤ 60) ∧
    validate_sensor_data_payload
      { device_id := "b1", temperature := F64.fin (-50), humidity := F64.fin 0,
        soil_moisture := F64.fin 0 } = Except.ok () ∧
    validate_sensor_data_payload
      { device_id := "b2", temperature := F64.fin 60, humidity := F64.fin 100,
        soil_moisture := F64.fin 100 } = Except.ok () ∧
    validate_sensor_data_payload { validPayload with humidity := F64.fin 150 } =
      Except.error (Error.InvalidInput "Humidity must be between 0 and 100") ∧
    validate_sensor_data_payload { validPayload with temperature := F64.fin (-60) } =
      Except.error (Error.InvalidInput "Temperature must be between -50 and 60 degrees") ∧
    validate_sensor_data_payload { validPayload with device_id := "  " } =
      Except.error (Error.InvalidInput "Device ID cannot be empty") ∧
    validate_sensor_data_payload { validPayload with soil_moisture := F64.fin 101 } =
      Except.error (Error.InvalidInput "Soil moisture must be between 0 and 100") := by
  refine ⟨?_, ?_, ?_, ?_, ?_, ?_, ?_, by decide, by decide, by decide, by decide,
    by decide, by decide⟩
  · intro p h1
    simp [validate_sensor_data_payload, h1]
  · intro p h1 h2
    simp [validate_sensor_data_payload, h1, h2]
  · intro p h1 h2 h3
    simp [validate_sensor_data_payload, h1, h2, h3]
  · intro p h1 h2 h3 h4
    simp [validate_sensor_data_payload, h1, h2, h3, h4]
  · intro p h1 h2 h3 h4
    simp [validate_sensor_data_payload, h1, h2, h3, h4]
  · intro q
    simp [rangeContains, F64.le]
  · intro q
    simp [F64.lt]

/-- Witness for C3: the short-circuit implications applied at concrete
payloads (whitespace-only device id; humidity NaN after a non-empty device
id; an in-range payload accepted). -/
theorem validate_order_and_boundaries_witness :
    validate_sensor_data_payload { validPayload with device_id := " " } =
      Except.error (Error.InvalidInput "Device ID cannot be empty") ∧
    validate_sensor_data_payload { validPayload with humidity := F64.fin 200 } =
      Except.error (Error.InvalidInput "Humidity must be between 0 and 100") ∧
    validate_sensor_data_payload { validPayload with temperature := F64.fin 61 } =
      Except.error (Error.InvalidInput "Temperature must be between -50 and 60 degrees") ∧
    validate_sensor_data_payload { validPayload with soil_moisture := F64.fin 102 } =
      Except.error (Error.InvalidInput "Soil moisture must be between 0 and 100") ∧
    validate_sensor_data_payload validPayload = Except.ok () :=
  ⟨validate_order_and_boundaries.1 _ (by decide),
   validate_order_and_boundaries.2.1 _ (by decide) (by decide),
   validate_order_and_boundaries.2.2.1 _ (by decide) (by decide) (by decide),
   validate_order_and_boundaries.2.2.2.1 _ (by decide) (by decide) (by decide) (by decide),
   validate_order_and_boundaries.2.2.2.2.1 _ (by decide) (by decide) (by decide) (by decide)⟩

theorem wellKeyed_initState : WellKeyed initState := by
  intro id d h
  simp [initState] at h

theorem wellKeyed_add (s : State) (now : Nat) (p : SensorDataPayload)
    (hw : WellKeyed s) : WellKeyed (add_sensor_data s now p).2 := by
  unfold add_sensor_data
  cases hv : validate_sensor_data_payload p with
  | error e => exact hw
  | ok u =>
    cases u
    intro id d h
    simp only [do_insert] at h
    by_cases hk : id = s.counter
    · subst hk
      simp at h
      rw [← h]
    · simp [hk] at h
      exact hw id d h

theorem wellKeyed_update (s : State) (now id0 : Nat) (p : SensorDataPayload)
    (hw : WellKeyed s) : WellKeyed (update_sensor_data s now id0 p).2 := by
  unfold update_sensor_data
  cases hv : validate_sensor_data_payload p with
  | error e => exact hw
  | ok u =>
    cases u
    cases hd : s.storage id0 with
    | none => exact hw
    | some d =>
      intro id d2 h
      simp only [do_insert] at h
      by_cases hk : id = d.id
      · subst hk
        simp at h
        rw [← h]
      · simp [hk] at h
        exact hw id d2 h

theorem wellKeyed_delete (s : State) (id0 : Nat) (hw : WellKeyed s) :
    WellKeyed (delete_sensor_data s id0).2 := by
  unfold delete_sensor_data
  cases hd : s.storage id0 with
  | none => exact hw
  | some d =>
    intro id d2 h
    simp only [] at h
    by_cases hk : id = id0
    · subst hk
      simp at h
    · simp [hk] at h
      exact hw id d2 h

/-- C4: for a well-keyed state (as every reachable state is), an id present
in the map and a payload passing validation, `update_sensor_data` returns a
record carrying the four payload fields with `updated_at` set to the clock
value of the call, and stores that same record in the map under the id. -/
theorem update_replaces_fields (s : State) (now id : Nat)
    (p2 : SensorDataPayload) (d : SensorData) (hw : WellKeyed s)
    (hv : validate_sensor_data_payload p2 = Except.ok ())
    (hd : s.storage id = some d) :
    ∃ (d2 : SensorData) (s2 : State),
      update_sensor_data s now id p2 = (Except.ok d2, s2) ∧
      d2.device_id = p2.device_id ∧ d2.temperature = p2.temperature ∧
      d2.humidity = p2.humidity ∧ d2.soil_moisture = p2.soil_moisture ∧
      d2.updated_at = some now ∧
      s2.storage id = some d2 := by
  unfold update_sensor_data
  rw [hv, hd]
  refine ⟨_, _, rfl, rfl, rfl, rfl, rfl, rfl, ?_⟩
  simp [do_insert, hw id d hd]

/-- Witness for C4: updating the single record of `oneRecState` with a
concrete second payload. -/
theorem update_replaces_fields_witness :
    ∃ (d2 : SensorData) (s2 : State),
      update_sensor_data oneRecState 7 0 validPayload2 = (Except.ok d2, s2) ∧
      d2.device_id = validPayload2.device_id ∧
      d2.temperature = validPayload2.temperature ∧
      d2.humidity = validPayload2.humidity ∧
      d2.soil_moisture = validPayload2.soil_moisture ∧
      d2.updated_at = some 7 ∧
      s2.storage 0 = some d2 :=
  update_replaces_fields oneRecState 7 0 validPayload2 record0
    oneRecState_wellKeyed (by decide) (by decide)

/-- C5: `update_sensor_data` never changes the id of the stored record or its
creation timestamp, and no operation touches a map entry other than the one
keyed by the id it targets (for updates on a well-keyed state, as every
reachable state is); update and delete leave the id counter untouched. -/
theorem frame_conditions :
    (∀ (s : State) (now id : Nat) (p : SensorDataPayload) (d d2 : SensorData)
       (s2 : State),
       s.storage id = some d →
       update_sensor_data s now id p = (Except.ok d2, s2) →
       d2.id = d.id ∧ d2.timestamp = d.timestamp) ∧
    (∀ (s : State) (now : Nat) (p : SensorDataPayload) (k : Nat),
       k ≠ s.counter →
       ((add_sensor_data s now p).2).storage k = s.storage k) ∧
    (∀ (s : State) (now id : Nat) (p : SensorDataPayload) (k : Nat),
       WellKeyed s → k ≠ id →
       ((update_sensor_data s now id p).2).storage k = s.storage k) ∧
    (∀ (s : State) (id k : Nat), k ≠ id →
       ((delete_sensor_data s id).2).storage k = s.storage k) ∧
    (∀ (s : State) (now id : Nat) (p : SensorDataPayload),
       ((update_sensor_data s now id p).2).counter = s.counter) ∧
    (∀ (s : State) (id : Nat),
       ((delete_sensor_data s id).2).counter = s.counter) := by
  refine ⟨?_, ?_, ?_, ?_, ?_, ?_⟩
  · intro s now id p d d2 s2 hd h
    unfold update_sensor_data at h
    cases hv : validate_sensor_data_payload p with
    | error e => rw [hv] at h; exact absurd (congrArg Prod.fst h) (by simp)
    | ok u =>
      cases u
      rw [hv, hd] at h
      simp only [Prod.mk.injEq, Except.ok.injEq] at h
      rw [← h.1]
      exact ⟨rfl, rfl⟩
  · intro s now p k hk
    unfold add_sensor_data
    cases hv : validate_sensor_data_payload p with
    | error e => rfl
    | ok u => cases u; simp [do_insert, hk]
  · intro s now id p k hw hk
    unfold update_sensor_data
    cases hv : validate_sensor_data_payload p with
    | error e => rfl
    | ok u =>
      cases u
      cases hd : s.storage id with
      | none => rfl
      | some d =>
        have hkey : d.id = id := hw id d hd
        simp [do_insert, hkey, hk]
  · intro s id k hk
    unfold delete_sensor_data
    cases hd : s.storage id with
    | none => rfl
    | some d => simp [hk]
  · intro s now id p
    unfold update_sensor_data
    cases hv : validate_sensor_data_payload p with
    | error e => rfl
    | ok u =>
      cases u
      cases hd : s.storage id with
      | none => rfl
      | some d => rfl
  · intro s id
    unfold delete_sensor_data
    cases hd : s.storage id with
    | none => rfl
    | some d => rfl

/-- Witness for C5: concrete frame checks around the single record of
`oneRecState` (updating or deleting id 0 leaves the entry at key 3 alone;
the updated record keeps id and creation timestamp). -/
theorem frame_conditions_witness :
    ((update_sensor_data oneRecState 7 0 validPayload2).1.map SensorData.id =
      Except.ok record0.id) ∧
    ((add_sensor_data oneRecState 9 validPayload2).2).storage 3 =
      oneRecState.storage 3 ∧
    ((update_sensor_data oneRecState 7 0 validPayload2).2).storage 3 =
      oneRecState.storage 3 ∧
    ((delete_sensor_data oneRecState 0).2).storage 3 = oneRecState.storage 3 ∧
    ((delete_sensor_data oneRecState 0).2).counter = oneRecState.counter := by
  refine ⟨?_, ?_, ?_, ?_, ?_⟩
  · have h := frame_conditions.1 oneRecState 7 0 validPayload2 record0 _ _
      (by decide) rfl
    rw [← h.1]
    decide
  · exact frame_conditions.2.1 oneRecState 9 validPayload2 3 (by decide)
  · exact frame_conditions.2.2.1 oneRecState 7 0 validPayload2 3
      oneRecState_wellKeyed (by decide)
  · exact frame_conditions.2.2.2.1 oneRecState 0 3 (by decide)
  · exact frame_conditions.2.2.2.2.2 oneRecState 0

/-- C6: after a successful `delete_sensor_data id` (which returns the removed
record), `get_sensor_data id` returns `NotFound` and a second
`delete_sensor_data id` also returns `NotFound`, both naming the id and
leaving the state as it was after the first delete. -/
theorem delete_then_not_found (s : State) (id : Nat) (d : SensorData)
    (s1 : State) (h : delete_sensor_data s id = (Except.ok d, s1)) :
    get_sensor_data s1 id =
      Except.error (Error.NotFound
        ("Sensor data with id=" ++ toString id ++ " not found")) ∧
    delete_sensor_data s1 id =
      (Except.error (Error.NotFound
        ("Couldn\x27t delete sensor data with id=" ++ toString id ++
          ". Data not found.")), s1) := by
  unfold delete_sensor_data at h
  cases hd : s.storage id with
  | none => rw [hd] at h; exact absurd (congrArg Prod.fst h) (by simp)
  | some d0 =>
    rw [hd] at h
    simp only [Prod.mk.injEq, Except.ok.injEq] at h
    have hs1 : s1.storage id = none := by
      rw [← h.2]
      simp
    constructor
    · unfold get_sensor_data _get_sensor_data
      rw [hs1]
    · unfold delete_sensor_data
      rw [hs1]

/-- Witness for C6: deleting the single record of `oneRecState`, then
reading and deleting it again. -/
theorem delete_then_not_found_witness :
    get_sensor_data (delete_sensor_data oneRecState 0).2 0 =
      Except.error (Error.NotFound "Sensor data with id=0 not found") ∧
    delete_sensor_data (delete_sensor_data oneRecState 0).2 0 =
      (Except.error (Error.NotFound
        "Couldn\x27t delete sensor data with id=0. Data not found."),
       (delete_sensor_data oneRecState 0).2) :=
  delete_then_not_found oneRecState 0 record0 (delete_sensor_data oneRecState 0).2 rfl

/-- C7: for an id absent from the map, `get_sensor_data`,
`update_sensor_data` (with a payload passing validation) and
`delete_sensor_data` all return `NotFound` carrying a message naming the id,
and the two mutating calls leave the state unchanged. -/
theorem unknown_id_not_found (s : State) (now id : Nat)
    (p : SensorDataPayload) (h : s.storage id = none)
    (hv : validate_sensor_data_payload p = Except.ok ()) :
    get_sensor_data s id =
      Except.error (Error.NotFound
        ("Sensor data with id=" ++ toString id ++ " not found")) ∧
    update_sensor_data s now id p =
      (Except.error (Error.NotFound
        ("Couldn\x27t update sensor data with id=" ++ toString id ++
          ". Data not found")), s) ∧
    delete_sensor_data s id =
      (Except.error (Error.NotFound
        ("Couldn\x27t delete sensor data with id=" ++ toString id ++
          ". Data not found.")), s) := by
  refine ⟨?_, ?_, ?_⟩
  · unfold get_sensor_data _get_sensor_data
    rw [h]
  · unfold update_sensor_data
    rw [hv, h]
  · unfold delete_sensor_data
    rw [h]

/-- Witness for C7: the three operations at id 999999 on the initial
(empty-map) state. -/
theorem unknown_id_not_found_witness :
    get_sensor_data initState 999999 =
      Except.error (Error.NotFound "Sensor data with id=999999 not found") ∧
    update_sensor_data initState 5 999999 validPayload =
      (Except.error (Error.NotFound
        "Couldn\x27t update sensor data with id=999999. Data not found"),
       initState) ∧
    delete_sensor_data initState 999999 =
      (Except.error (Error.NotFound
        "Couldn\x27t delete sensor data with id=999999. Data not found."),
       initState) :=
  unknown_id_not_found initState 5 999999 validPayload rfl (by decide)

/-- C8: assuming the host clock is non-decreasing across calls (the record
creation time is at most the clock value of the first update, which is at
most that of the second), two successive successful updates on a well-keyed state set
`updated_at` to times that are at least the unchanged creation timestamp and
non-decreasing from the first update to the second. -/
theorem updated_at_monotone (s : State) (id now1 now2 : Nat)
    (p1 p2 : SensorDataPayload) (d d1 d2 : SensorData) (s1 s2 : State)
    (hw : WellKeyed s) (hd : s.storage id = some d)
    (h1 : update_sensor_data s now1 id p1 = (Except.ok d1, s1))
    (h2 : update_sensor_data s1 now2 id p2 = (Except.ok d2, s2))
    (hclock1 : d.timestamp ≤ now1) (hclock2 : now1 ≤ now2) :
    ∃ t1 t2, d1.updated_at = some t1 ∧ d2.updated_at = some t2 ∧
      d1.timestamp ≤ t1 ∧ t1 ≤ t2 ∧ d2.timestamp = d1.timestamp := by
  unfold update_sensor_data at h1
  cases hv1 : validate_sensor_data_payload p1 with
  | error e => rw [hv1] at h1; exact absurd (congrArg Prod.fst h1) (by simp)
  | ok u =>
    cases u
    rw [hv1, hd] at h1
    simp only [Prod.mk.injEq, Except.ok.injEq] at h1
    have hkey : d.id = id := hw id d hd
    have hs1 : s1.storage id = some d1 := by
      rw [← h1.2, ← h1.1]
      simp [do_insert, hkey]
    unfold update_sensor_data at h2
    cases hv2 : validate_sensor_data_payload p2 with
    | error e => rw [hv2] at h2; exact absurd (congrArg Prod.fst h2) (by simp)
    | ok u =>
      cases u
      rw [hv2, hs1] at h2
      simp only [Prod.mk.injEq, Except.ok.injEq] at h2
      refine ⟨now1, now2, ?_, ?_, ?_, hclock2, ?_⟩
      · rw [← h1.1]
      · rw [← h2.1]
      · rw [← h1.1]
        exact hclock1
      · rw [← h2.1, ← h1.1]

/-- Witness for C8: two updates of the single record of `oneRecState` at
clock values 7 and 9. -/
theorem updated_at_monotone_witness :
    ∃ t1 t2,
      ((update_sensor_data oneRecState 7 0 validPayload2).1.map
        SensorData.updated_at = Except.ok (some t1)) ∧
      ((update_sensor_data (update_sensor_data oneRecState 7 0 validPayload2).2
        9 0 validPayload).1.map SensorData.updated_at = Except.ok (some t2)) ∧
      t1 ≤ t2 := by
  have h := updated_at_monotone oneRecState 0 7 9 validPayload2 validPayload
    record0 _ _ (update_sensor_data oneRecState 7 0 validPayload2).2
    (update_sensor_data (update_sensor_data oneRecState 7 0 validPayload2).2
      9 0 validPayload).2
    oneRecState_wellKeyed rfl rfl rfl (by decide) (by decide)
  obtain ⟨t1, t2, ht1, ht2, _, hle, _⟩ := h
  refine ⟨t1, t2, ?_, ?_, hle⟩
  · rw [show (update_sensor_data oneRecState 7 0 validPayload2).1.map
        SensorData.updated_at = Except.ok (SensorData.updated_at _) from rfl,
      ht1]
  · rw [show (update_sensor_data (update_sensor_data oneRecState 7 0
        validPayload2).2 9 0 validPayload).1.map SensorData.updated_at =
        Except.ok (SensorData.updated_at _) from rfl, ht2]

/-- C9: whenever `add_sensor_data` or `update_sensor_data` returns an error,
the durable state is returned unchanged — in particular a failed add does not
increment the id counter, so the next successful add receives the id the
failed call would have received. -/
theorem error_leaves_state_unchanged :
    (∀ (s : State) (now : Nat) (p : SensorDataPayload) (e : Error)
       (s1 : State),
       add_sensor_data s now p = (Except.error e, s1) → s1 = s) ∧
    (∀ (s : State) (now id : Nat) (p : SensorDataPayload) (e : Error)
       (s1 : State),
       update_sensor_data s now id p = (Except.error e, s1) → s1 = s) := by
  constructor
  · intro s now p e s1 h
    exact add_err_state h
  · intro s now id p e s1 h
    unfold update_sensor_data at h
    cases hv : validate_sensor_data_payload p with
    | error e2 =>
      rw [hv] at h
      exact (congrArg Prod.snd h).symm
    | ok u =>
      cases u
      rw [hv] at h
      cases hd : s.storage id with
      | some d => rw [hd] at h; exact absurd (congrArg Prod.fst h) (by simp)
      | none =>
        rw [hd] at h
        exact (congrArg Prod.snd h).symm

/-- Witness for C9: an add with an out-of-range humidity and an update with
an empty device id both hand back the initial state. -/
theorem error_leaves_state_unchanged_witness :
    initState = initState ∧ oneRecState = oneRecState :=
  ⟨error_leaves_state_unchanged.1 initState 5
      { validPayload with humidity := F64.fin 150 }
      (Error.InvalidInput "Humidity must be between 0 and 100") initState rfl,
   error_leaves_state_unchanged.2 oneRecState 7 0
      { validPayload with device_id := "  " }
      (Error.InvalidInput "Device ID cannot be empty") oneRecState rfl⟩

/-- The NaN-temperature payload: every other field valid. -/
def nanTempPayload : SensorDataPayload :=
  { device_id := "greenhouse-1", temperature := F64.nan,
    humidity := F64.fin 50, soil_moisture := F64.fin 40 }

/-- The NaN-humidity payload: every other field valid. -/
def nanHumidityPayload : SensorDataPayload :=
  { device_id := "greenhouse-1", temperature := F64.fin 25,
    humidity := F64.nan, soil_moisture := F64.fin 40 }

/-- The NaN-soil-moisture payload: every other field valid. -/
def nanSoilPayload : SensorDataPayload :=
  { device_id := "greenhouse-1", temperature := F64.fin 25,
    humidity := F64.fin 50, soil_moisture := F64.nan }

/-- C10: a NaN temperature passes validation (both strict comparisons of the
temperature check are false on NaN), so add and update accept the payload and
store `temperature = NaN`; a NaN humidity or soil moisture fails the
corresponding inclusive-range containment check and is rejected with
`InvalidInput`. -/
theorem nan_temperature_accepted :
    validate_sensor_data_payload nanTempPayload = Except.ok () ∧
    (∀ (s : State) (now : Nat),
      ∃ (d : SensorData) (s1 : State),
        add_sensor_data s now nanTempPayload = (Except.ok d, s1) ∧
        d.temperature = F64.nan ∧ s1.storage d.id = some d) ∧
    (∀ (s : State) (now id : Nat) (d : SensorData), s.storage id = some d →
      ∃ (d2 : SensorData) (s2 : State),
        update_sensor_data s now id nanTempPayload = (Except.ok d2, s2) ∧
        d2.temperature = F64.nan ∧ s2.storage d2.id = some d2) ∧
    validate_sensor_data_payload nanHumidityPayload =
      Except.error (Error.InvalidInput "Humidity must be between 0 and 100") ∧
    validate_sensor_data_payload nanSoilPayload =
      Except.error (Error.InvalidInput "Soil moisture must be between 0 and 100") := by
  refine ⟨by decide, ?_, ?_, by decide, by decide⟩
  · intro s now
    refine ⟨_, _, rfl, rfl, ?_⟩
    simp [add_sensor_data, do_insert]
  · intro s now id d hd
    unfold update_sensor_data
    rw [show validate_sensor_data_payload nanTempPayload = Except.ok ()
      from by decide, hd]
    refine ⟨_, _, rfl, rfl, ?_⟩
    simp [do_insert]

/-- Witness for C10: adding the NaN-temperature payload to the initial state
and updating the single record of `oneRecState` with it. -/
theorem nan_temperature_accepted_witness :
    (∃ (d : SensorData) (s1 : State),
      add_sensor_data initState 5 nanTempPayload = (Except.ok d, s1) ∧
      d.temperature = F64.nan ∧ s1.storage d.id = some d) ∧
    (∃ (d2 : SensorData) (s2 : State),
      update_sensor_data oneRecState 7 0 nanTempPayload = (Except.ok d2, s2) ∧
      d2.temperature = F64.nan ∧ s2.storage d2.id = some d2) :=
  ⟨nan_temperature_accepted.2.1 initState 5,
   nan_temperature_accepted.2.2.1 oneRecState 7 0 record0 rfl⟩
